import Mathlib

/-!
Shallow embedding of the asynchronous job execution backend
(`backend/app` of the repository): the Vertex AI remote-call adapter
(`services/vertex_ai.py`), the in-memory job registry
(`services/job_manager.py`), the generation routers (`routers/generate.py`),
the durable queue worker (`services/queue_worker.py`), the credential service
(`services/auth.py`) and the application lifespan (`main.py`).

Conventions of the embedding:
* Python strings are Lean `String`; `str.lower`, `str.strip` and the
  substring operator `in` are embedded below as `pyLower`, `pyStrip`,
  `pyContains` (the inputs relevant here are ASCII plus Korean text, on
  which the Python and Lean case maps agree).
* Timestamps are `Int` seconds; `datetime.now()` is a `now` parameter.
* The database (`app/db.py` is a thin Prisma client wrapper; the spec treats
  the store as an abstract relational store) is embedded as Lean lists of
  row structures, with the Prisma query semantics written out per call.
* Effects of a handler (store writes, registry writes, enqueues, scheduled
  background tasks) are returned as an explicit `Effect` list.
* The outcome of each remote endpoint attempt is an oracle
  `beh : Nat → Except String String` (attempt index to error text or bytes).
-/

/-- Character-list test: does `text` start with `pat`? (helper for the
Python substring operator). -/
def charsStartWith : List Char → List Char → Bool
  | [], _ => true
  | _ :: _, [] => false
  | p :: ps, c :: cs => p == c && charsStartWith ps cs

/-- Character-list test: does `pat` occur as a contiguous segment of the
text? (helper for the Python substring operator). -/
def charsHaveSeg (pat : List Char) : List Char → Bool
  | [] => pat.isEmpty
  | c :: cs => charsStartWith pat (c :: cs) || charsHaveSeg pat cs

/-- Python `sub in s` on strings. -/
def pyContains (s sub : String) : Bool :=
  charsHaveSeg sub.data s.data

/-- Python `str.lower` (ASCII case folding; all strings handled by the
backend's error classification are ASCII or Korean, where this agrees with
Python). -/
def pyLower (s : String) : String :=
  String.mk (s.data.map Char.toLower)

/-- Python `str.strip()` — trim outer whitespace (written on the character
list so the kernel can evaluate it). -/
def pyStrip (s : String) : String :=
  String.mk (((s.data.dropWhile Char.isWhitespace).reverse.dropWhile
    Char.isWhitespace).reverse)

/-- Prompt normalization used by the cache and the asset writers:
`prompt.strip().lower()` (routers/generate.py, services/queue_worker.py). -/
def normalizePrompt (p : String) : String :=
  pyLower (pyStrip p)

/-- `_SAFETY_PATTERNS` of services/vertex_ai.py lines 70-82: pairs of an
(English) pattern and the Korean replacement sentence. -/
def SAFETY_PATTERNS : List (String × String) :=
  [("usage guidelines", "입력하신 프롬프트가 Vertex AI 이용 정책을 위반하여 요청이 거부되었습니다."),
   ("could not be submitted", "입력하신 프롬프트가 정책에 의해 제출이 거부되었습니다."),
   ("raiMediaFiltered", "생성된 콘텐츠가 안전 정책(폭력, 선정성 등)에 의해 차단되었습니다."),
   ("safety", "안전 정책에 의해 요청이 차단되었습니다."),
   ("responsible ai", "AI 윤리 정책에 의해 요청이 차단되었습니다."),
   ("copyright", "저작권 관련 정책에 의해 차단되었습니다."),
   ("trademark", "상표권 관련 정책에 의해 차단되었습니다."),
   ("person", "특정 인물 생성이 정책에 의해 제한되었습니다."),
   ("child", "아동 관련 콘텐츠가 정책에 의해 차단되었습니다."),
   ("blocked", "콘텐츠 정책에 의해 차단되었습니다.")]

/-- `_to_korean_safety_message` (services/vertex_ai.py lines 84-93): lowercase
the error text, scan the pattern list in order, and on the first hit return
the Korean sentence followed by the fixed retry advice; `none` otherwise. -/
def toKoreanSafetyMessage (errorMsg : String) : Option String :=
  let lower := pyLower errorMsg
  match SAFETY_PATTERNS.find? (fun pk => pyContains lower pk.1) with
  | some pk => some (pk.2 ++ " 프롬프트를 수정한 후 다시 시도해 주세요.")
  | none => none

/-- The error text surfaced by `_poll_operation` (services/vertex_ai.py lines
406-413) when a done operation carries an `error` with message `rawMsg`: the
Korean translation if a safety pattern hits, otherwise the raw provider text
wrapped in the fixed failure prose. -/
def pollOperationErrorResult (rawMsg : String) : String :=
  match toKoreanSafetyMessage rawMsg with
  | some k => k
  | none => "Veo operation failed: " ++ rawMsg

/-- The two exception classes of services/vertex_ai.py lines 53-59. -/
inductive APIError
  | retryable (msg : String)
  | nonRetryable (msg : String)
deriving Repr, DecidableEq

/-- The error classification performed in the `except` block of
`generate_image` (services/vertex_ai.py lines 172-188): 429/RESOURCE_EXHAUSTED,
503/UNAVAILABLE and 500/INTERNAL substrings are retryable; everything else is
non-retryable, with the safety translation applied first when it hits. -/
def classifyImagenError (errorStr : String) : APIError :=
  if pyContains errorStr "429" || pyContains errorStr "RESOURCE_EXHAUSTED" then
    APIError.retryable errorStr
  else if pyContains errorStr "503" || pyContains errorStr "UNAVAILABLE" then
    APIError.retryable errorStr
  else if pyContains errorStr "500" || pyContains errorStr "INTERNAL" then
    APIError.retryable errorStr
  else
    match toKoreanSafetyMessage errorStr with
    | some k => APIError.nonRetryable k
    | none => APIError.nonRetryable errorStr

/-- Observable events of one run of `generate_image`: semaphore permit
acquisition and release (the `async with IMAGE_SEMAPHORE` block,
services/vertex_ai.py line 149), the remote endpoint attempt, and the
exponential-backoff sleep tenacity inserts between attempts. -/
inductive PermitEv
  | acquire
  | call (attempt : Nat)
  | release
  | backoffWait (attempt : Nat)
deriving Repr, DecidableEq, BEq

/-- One attempt of `generate_image`'s body: the permit is acquired on entry
to the `async with` block, the endpoint is invoked under it, and the permit
is released when the block exits — on the success path after the response
arrives, and on the error path when the classified exception propagates out
of the block. -/
def imagenAttempt (beh : Nat → Except String String) (n : Nat) :
    List PermitEv × Except APIError String :=
  match beh n with
  | Except.ok bytes =>
      ([PermitEv.acquire, PermitEv.call n, PermitEv.release], Except.ok bytes)
  | Except.error msg =>
      ([PermitEv.acquire, PermitEv.call n, PermitEv.release],
       Except.error (classifyImagenError msg))

/-- The tenacity retry loop around `generate_image` (decorator at
services/vertex_ai.py lines 135-141): retry only `RetryableAPIError`, sleep a
backoff between attempts, stop after the given number of attempts and
re-raise the last exception. `n` is the index of the current attempt,
`remaining` the number of attempts still allowed including this one. -/
def generateImageLoop (beh : Nat → Except String String) (n : Nat) :
    Nat → List PermitEv × Except APIError String
  | 0 => ([], Except.error (APIError.retryable "no attempts"))
  | 1 => imagenAttempt beh n
  | Nat.succ (Nat.succ r) =>
      match imagenAttempt beh n with
      | (tr, Except.ok v) => (tr, Except.ok v)
      | (tr, Except.error (APIError.retryable _)) =>
          let rest := generateImageLoop beh (n + 1) (Nat.succ r)
          (tr ++ PermitEv.backoffWait n :: rest.1, rest.2)
      | (tr, Except.error e) => (tr, Except.error e)

/-- `stop_after_attempt(5)` of the `generate_image` retry decorator. -/
def MAX_IMAGE_ATTEMPTS : Nat := 5

/-- `generate_image(prompt, job_id)` (services/vertex_ai.py lines 135-197),
with the remote endpoint abstracted as the oracle `beh`: runs the retried
attempt loop; on success the image bytes are written outside the semaphore
and the storage-relative URL is returned. The permit/call/backoff trace is
returned alongside the result. -/
def generateImage (jobId : String) (beh : Nat → Except String String) :
    List PermitEv × Except APIError String :=
  match generateImageLoop beh 0 MAX_IMAGE_ATTEMPTS with
  | (tr, Except.ok _) => (tr, Except.ok ("/storage/images/" ++ jobId ++ ".png"))
  | (tr, Except.error e) => (tr, Except.error e)

/-- Number of remote endpoint invocations recorded in a trace. -/
def callCount (tr : List PermitEv) : Nat :=
  (tr.filter fun e => match e with | PermitEv.call _ => true | _ => false).length

/-- Permit-discipline checker: scanning the trace with the number of permits
held, every acquire happens with the permit free, every release and every
endpoint call happen with the permit held, every backoff sleep happens with
the permit free, and the trace ends with the permit free. -/
def permitScan (held : Nat) : List PermitEv → Bool
  | [] => held == 0
  | PermitEv.acquire :: rest => held == 0 && permitScan 1 rest
  | PermitEv.release :: rest => held == 1 && permitScan 0 rest
  | PermitEv.call _ :: rest => held == 1 && permitScan held rest
  | PermitEv.backoffWait _ :: rest => held == 0 && permitScan held rest

/-- Checker for the claimed discipline ("one permit, acquired before the
first attempt, held across every backoff wait, released exactly once at the
end"): exactly one release in the whole trace, and at every backoff sleep at
least one permit is held. -/
def heldAcrossRetriesOnce (tr : List PermitEv) : Bool :=
  tr.count PermitEv.release == 1 && heldAtBackoffs 0 tr
where
  heldAtBackoffs (held : Nat) : List PermitEv → Bool
    | [] => true
    | PermitEv.acquire :: rest => heldAtBackoffs (held + 1) rest
    | PermitEv.release :: rest => heldAtBackoffs (held - 1) rest
    | PermitEv.call _ :: rest => heldAtBackoffs held rest
    | PermitEv.backoffWait _ :: rest => decide (0 < held) && heldAtBackoffs held rest

/-- Endpoint oracle: one 429 RESOURCE_EXHAUSTED failure, then bytes. -/
def behRetryOnce : Nat → Except String String := fun n =>
  if n == 0 then Except.error "429 RESOURCE_EXHAUSTED" else Except.ok "bytes"

/-- Endpoint oracle of spec scenario 3: 429 RESOURCE_EXHAUSTED on the first
two attempts, bytes on the third. -/
def behRetryTwice : Nat → Except String String := fun n =>
  if n < 2 then Except.error "429 RESOURCE_EXHAUSTED" else Except.ok "bytes"

/-- `JobInfo` of services/job_manager.py lines 6-14: live in-memory job
state. The `created_at` default factory is the `now` parameter of
`createJob`; the change-notifier `_event` carries no job state and is left
out of the embedding. -/
structure JobInfo where
  job_id : String
  status : String := "pending"
  asset_id : Option Nat := none
  result_url : Option String := none
  error_message : Option String := none
  created_at : Int := 0
deriving Repr, DecidableEq

/-- The `JobManager._jobs` dict, most recent insertion first. -/
abbrev Registry := List (String × JobInfo)

/-- Dict lookup `self._jobs.get(job_id)` (`JobManager.get_job`). -/
def lookupJob (reg : Registry) (id : String) : Option JobInfo :=
  (reg.find? (fun p => p.1 == id)).map (fun p => p.2)

/-- `JobManager.create_job`: store a fresh `JobInfo` under the id and return
it. -/
def createJob (reg : Registry) (now : Int) (id : String) : Registry × JobInfo :=
  let job : JobInfo := { job_id := id, created_at := now }
  ((id, job) :: reg, job)

/-- Overlay of the keyword arguments passed to `JobManager.update_job`: a
`none` field is a keyword that was not passed (no call site in the backend
passes an explicit `None`). -/
def applyJobUpdate (j : JobInfo) (status : Option String) (assetId : Option Nat)
    (resultUrl : Option String) (errorMessage : Option String) : JobInfo :=
  { j with
    status := status.getD j.status,
    asset_id := match assetId with | some a => some a | none => j.asset_id,
    result_url := match resultUrl with | some u => some u | none => j.result_url,
    error_message := match errorMessage with | some e => some e | none => j.error_message }

/-- `JobManager.update_job`: overlay the passed fields onto the stored entry
(no-op when the id is absent) and fire the change-notifier. -/
def updateJob (reg : Registry) (id : String) (status : Option String)
    (assetId : Option Nat) (resultUrl : Option String)
    (errorMessage : Option String) : Registry :=
  reg.map (fun p =>
    if p.1 == id then (p.1, applyJobUpdate p.2 status assetId resultUrl errorMessage)
    else p)

/-- An `Asset` row of the durable store (fields used by
`find_cached_asset` and the asset writers). `userId` is optional because the
asset writers of routers/generate.py supply no `userId` key. -/
structure Asset where
  id : Nat
  userId : Option Nat := none
  jobId : String
  filePath : Option String := none
  prompt : String
  model : String
  assetType : String
  createdAt : Int
deriving Repr, DecidableEq

/-- Python truthiness of the optional `filePath` column (`if asset and
asset.filePath:`): present and non-empty. -/
def truthyPath (fp : Option String) : Bool :=
  match fp with
  | some s => !(s == "")
  | none => false

/-- Prisma `find_first(where=q, order={"createdAt": "desc"})` over the asset
table: the matching row with the greatest `createdAt` (the first such row in
table order when several tie). -/
def newestMatch (assets : List Asset) (q : Asset → Bool) : Option Asset :=
  assets.foldl
    (fun acc a =>
      if q a then
        match acc with
        | none => some a
        | some b => if b.createdAt < a.createdAt then some a else some b
      else acc)
    none

/-- The cache fingerprint test of `find_cached_asset`: normalized prompt,
model tag and asset type all equal. -/
def fingerprintMatch (a : Asset) (prompt model assetType : String) : Bool :=
  a.prompt == normalizePrompt prompt && a.model == model && a.assetType == assetType

/-- `find_cached_asset(prompt, model, asset_type)` (routers/generate.py lines
76-100): normalize the prompt, query the newest matching asset, and report a
hit `(asset_id, result_url)` only when the row exists and its `filePath` is
truthy. -/
def find_cached_asset (assets : List Asset) (prompt model assetType : String) :
    Option (Nat × String) :=
  match newestMatch assets (fun a => fingerprintMatch a prompt model assetType) with
  | some a => if truthyPath a.filePath then some (a.id, a.filePath.getD "") else none
  | none => none

/-- `ImageGenerateRequest` (routers/generate.py lines 20-40): prompt, model
and the optional Imagen parameters (each `none` when the client did not set
it; the Pydantic range and literal constraints are not needed by the claims
settled here). `aspect_ratio` is embedded as `aspectRatioVal`. -/
structure ImageGenerateRequest where
  prompt : String
  model : String
  aspectRatioVal : Option String := none
  negativePrompt : Option String := none
  seed : Option Int := none
  guidanceScale : Option Int := none
  safetyFilterLevel : Option String := none
  addWatermark : Option Bool := none
  language : Option String := none
deriving Repr, DecidableEq

/-- `VideoGenerateRequest` (routers/generate.py lines 43-59). -/
structure VideoGenerateRequest where
  prompt : String
  model : String
  aspectRatioVal : Option String := none
  durationSeconds : Option Int := none
  negativePrompt : Option String := none
  seed : Option Int := none
  generateAudio : Option Bool := none
  resolution : Option String := none
deriving Repr, DecidableEq

/-- Truthiness of `request.model_dump(exclude={"prompt", "model"},
exclude_none=True)`: some optional Imagen parameter is set. -/
def imageRequestHasOptions (r : ImageGenerateRequest) : Bool :=
  r.aspectRatioVal.isSome || r.negativePrompt.isSome || r.seed.isSome ||
    r.guidanceScale.isSome || r.safetyFilterLevel.isSome ||
    r.addWatermark.isSome || r.language.isSome

/-- Truthiness of the options dump of a `VideoGenerateRequest`. -/
def videoRequestHasOptions (r : VideoGenerateRequest) : Bool :=
  r.aspectRatioVal.isSome || r.durationSeconds.isSome || r.negativePrompt.isSome ||
    r.seed.isSome || r.generateAudio.isSome || r.resolution.isSome

/-- `GenerateResponse` (routers/generate.py lines 62-65). -/
structure GenerateResponse where
  job_id : String
  status : String
  created_at : Int
deriving Repr, DecidableEq

/-- The `data` dict passed to `db.asset.create` by the asset writers.
`userId` is `none` exactly when the writer supplies no `userId` key (the
background tasks of routers/generate.py lines 110-116, 126-132, 142-148). -/
structure AssetCreateData where
  jobId : String
  filePath : String
  prompt : String
  model : String
  assetType : String
  userId : Option Nat := none
deriving Repr, DecidableEq

/-- Side effects a handler or task performs, in program order: durable job
writes, registry writes, asset-row creation, FIFO enqueue, and scheduling of
a FastAPI background task. -/
inductive Effect
  | dbJobCreate (jobId : String)
  | dbJobUpdate (jobId : String) (status : Option String)
  | dbAssetCreate (data : AssetCreateData)
  | enqueueFifo (jobId : String)
  | scheduleTask (jobId : String)
  | registryCreate (jobId : String)
  | registryUpdate (jobId : String) (status : Option String) (assetId : Option Nat)
      (resultUrl : Option String) (errorMessage : Option String)
deriving Repr, DecidableEq

/-- The background task scheduled by a submission handler
(`background_tasks.add_task(process_…, job_id, prompt, model, options)`). -/
structure BgTask where
  jobId : String
  prompt : String
  model : String
deriving Repr, DecidableEq

/-- Result of one submission handler: new registry, HTTP response body,
effect list, and the scheduled background task if any. -/
structure HandlerResult where
  registry : Registry
  response : GenerateResponse
  effects : List Effect
  task : Option BgTask

/-- The shared cache-miss tail of `text_to_image` (routers/generate.py lines
174-178) and `text_to_video` (lines 198-202): mint a job id, create the live
registry entry, schedule the processing background task, and answer
`pending`. No durable job row is written and nothing is enqueued on the
worker FIFO. -/
def generateMissPath (reg : Registry) (now : Int) (newJobId : String)
    (prompt model : String) : HandlerResult :=
  let created := createJob reg now newJobId
  { registry := created.1,
    response := { job_id := newJobId, status := "pending", created_at := now },
    effects := [Effect.registryCreate newJobId, Effect.scheduleTask newJobId],
    task := some { jobId := newJobId, prompt := prompt, model := model } }

/-- `text_to_image` (routers/generate.py lines 155-178): when no option is
set, consult the cache; on a hit create a live job, immediately mark it
completed with the cached asset id and path, and answer `completed` without
scheduling any work; otherwise take the miss path. -/
def text_to_image (assets : List Asset) (reg : Registry) (now : Int)
    (newJobId : String) (req : ImageGenerateRequest) : HandlerResult :=
  if imageRequestHasOptions req then
    generateMissPath reg now newJobId req.prompt req.model
  else
    match find_cached_asset assets req.prompt req.model "image" with
    | some hit =>
        let created := createJob reg now newJobId
        let reg2 := updateJob created.1 newJobId (some "completed") (some hit.1)
          (some hit.2) none
        { registry := reg2,
          response := { job_id := newJobId, status := "completed", created_at := now },
          effects := [Effect.registryCreate newJobId,
            Effect.registryUpdate newJobId (some "completed") (some hit.1)
              (some hit.2) none],
          task := none }
    | none => generateMissPath reg now newJobId req.prompt req.model

/-- `text_to_video` (routers/generate.py lines 180-202): same shape as
`text_to_image` with asset type `video`. -/
def text_to_video (assets : List Asset) (reg : Registry) (now : Int)
    (newJobId : String) (req : VideoGenerateRequest) : HandlerResult :=
  if videoRequestHasOptions req then
    generateMissPath reg now newJobId req.prompt req.model
  else
    match find_cached_asset assets req.prompt req.model "video" with
    | some hit =>
        let created := createJob reg now newJobId
        let reg2 := updateJob created.1 newJobId (some "completed") (some hit.1)
          (some hit.2) none
        { registry := reg2,
          response := { job_id := newJobId, status := "completed", created_at := now },
          effects := [Effect.registryCreate newJobId,
            Effect.registryUpdate newJobId (some "completed") (some hit.1)
              (some hit.2) none],
          task := none }
    | none => generateMissPath reg now newJobId req.prompt req.model

/-- `image_to_video` (routers/generate.py lines 204-232): no cache lookup at
all; always create the live job, schedule the processing task and answer
`pending`. The multipart form fields beyond prompt and model do not affect
the control flow embedded here. -/
def image_to_video (reg : Registry) (now : Int) (newJobId : String)
    (prompt model : String) : HandlerResult :=
  generateMissPath reg now newJobId prompt model

/-- The `/api/generate/text-to-image` route as wired in routers/generate.py:
the endpoint function declares no authentication dependency, so FastAPI runs
the handler for every request whatever the `Authorization` header holds, and
a normal run answers HTTP 200. -/
def text_to_image_route (_authHeader : Option String) (assets : List Asset)
    (reg : Registry) (now : Int) (newJobId : String)
    (req : ImageGenerateRequest) : Nat × HandlerResult :=
  (200, text_to_image assets reg now newJobId req)

/-- The `/api/generate/text-to-video` route: no authentication dependency. -/
def text_to_video_route (_authHeader : Option String) (assets : List Asset)
    (reg : Registry) (now : Int) (newJobId : String)
    (req : VideoGenerateRequest) : Nat × HandlerResult :=
  (200, text_to_video assets reg now newJobId req)

/-- The `/api/generate/image-to-video` route: no authentication dependency. -/
def image_to_video_route (_authHeader : Option String) (reg : Registry)
    (now : Int) (newJobId : String) (prompt model : String) : Nat × HandlerResult :=
  (200, image_to_video reg now newJobId prompt model)

/-- Semantics of the call expression
`vertex_ai_service.generate_image(prompt, job_id, options=options)` at
routers/generate.py line 108 (and `… options=options or None` at
services/queue_worker.py line 150): the method is defined as
`generate_image(self, prompt, job_id)` (services/vertex_ai.py line 142) with
no `options` parameter and no keyword catch-all, so Python raises a
`TypeError` at argument binding — before the retry-wrapped body runs, before
the permit is acquired and before any remote attempt. `TypeError` is not a
`RetryableAPIError`, so tenacity re-raises it at once. -/
def imagenCallTypeErrorMsg : String :=
  "TypeError: generate_image got an unexpected keyword argument options"

/-- Outcome and permit trace of the router call site of `generate_image`:
the `TypeError` of the stray `options` keyword, an empty trace, zero
endpoint calls. -/
def imagenCallSite (_beh : Nat → Except String String) (_jobId : String) :
    List PermitEv × Except String String :=
  ([], Except.error imagenCallTypeErrorMsg)

/-- `process_image_generation` (routers/generate.py lines 105-119) with the
outcome of the `generate_image` call expression supplied as `callOutcome` and
the id Prisma assigns to a freshly created asset row as `newAssetId`: mark
the live job processing, run the call; on success create the asset row —
whose data dict carries no `userId` key — and mark the job completed; on any
exception mark the job failed with the exception text. -/
def processImageGeneration (callOutcome : Except String String)
    (jobId prompt model : String) (newAssetId : Nat) (reg : Registry) :
    Registry × List Effect :=
  let reg1 := updateJob reg jobId (some "processing") none none none
  let base := [Effect.registryUpdate jobId (some "processing") none none none]
  match callOutcome with
  | Except.ok url =>
      let d : AssetCreateData :=
        { jobId := jobId, filePath := url, prompt := normalizePrompt prompt,
          model := model, assetType := "image" }
      (updateJob reg1 jobId (some "completed") (some newAssetId) (some url) none,
       base ++ [Effect.dbAssetCreate d,
         Effect.registryUpdate jobId (some "completed") (some newAssetId)
           (some url) none])
  | Except.error e =>
      (updateJob reg1 jobId (some "failed") none none (some e),
       base ++ [Effect.registryUpdate jobId (some "failed") none none (some e)])

/-- The asset-creation effects of an effect list. -/
def assetCreates (effs : List Effect) : List AssetCreateData :=
  effs.filterMap (fun e => match e with
    | Effect.dbAssetCreate d => some d
    | _ => none)

/-- The live statuses a run records, in order: `pending` for a registry
creation (the `JobInfo` default), then each status passed to a registry
update. -/
def statusTrace (effs : List Effect) : List String :=
  effs.filterMap (fun e => match e with
    | Effect.registryCreate _ => some "pending"
    | Effect.registryUpdate _ (some s) _ _ _ => some s
    | _ => none)

/-- Full processing of one `text_to_image` submission: the handler, followed
by the scheduled background task (if any) run with the outcome of the
`generate_image` call expression. -/
def runTextToImage (assets : List Asset) (reg : Registry) (now : Int)
    (newJobId : String) (req : ImageGenerateRequest)
    (callOutcome : Except String String) (newAssetId : Nat) :
    Registry × GenerateResponse × List Effect :=
  let h := text_to_image assets reg now newJobId req
  match h.task with
  | some t =>
      let bg := processImageGeneration callOutcome t.jobId t.prompt t.model
        newAssetId h.registry
      (bg.1, h.response, h.effects ++ bg.2)
  | none => (h.registry, h.response, h.effects)

/-- A `Job` row of the durable store, as read and written by
services/queue_worker.py (ids are unique in the table; timestamps are
seconds). -/
structure JobRow where
  id : Nat
  jobId : String
  userId : Nat
  jobType : String
  prompt : String
  model : String
  status : String
  errorMessage : Option String := none
  createdAt : Int
  updatedAt : Int
deriving Repr, DecidableEq

/-- `ZOMBIE_THRESHOLD_HOURS` (services/queue_worker.py line 17). -/
def ZOMBIE_THRESHOLD_HOURS : Nat := 24

/-- The abandonment message written by `_cleanup_zombie_jobs`
(services/queue_worker.py line 90). -/
def zombieMessage : String :=
  "좀비 작업: " ++ toString ZOMBIE_THRESHOLD_HOURS ++ "시간 이상 처리 중 상태로 방치됨"

/-- Is this row a zombie at time `now`: status `processing` and `updatedAt`
older than the 24-hour threshold. -/
def isZombieAt (now : Int) (j : JobRow) : Bool :=
  j.status == "processing" && decide (j.updatedAt < now - (ZOMBIE_THRESHOLD_HOURS : Int) * 3600)

/-- `_cleanup_zombie_jobs` (services/queue_worker.py lines 79-93): every
zombie row is marked failed with the abandonment message; other rows are
untouched. -/
def cleanupZombieJobs (now : Int) (jobs : List JobRow) : List JobRow :=
  jobs.map (fun j =>
    if isZombieAt now j then
      { j with status := "failed", errorMessage := some zombieMessage }
    else j)

/-- The first loop of `_recover_from_db` (services/queue_worker.py lines
61-64): every row still in status `processing` is flipped back to
`queued`. -/
def recoverFlip (jobs : List JobRow) : List JobRow :=
  jobs.map (fun j => if j.status == "processing" then { j with status := "queued" } else j)

/-- Insertion step of the `createdAt`-ascending sort (stable: equal keys keep
table order), embedding the `order={"createdAt": "asc"}` of the recovery
query. -/
def insertByCreatedAt (j : JobRow) : List JobRow → List JobRow
  | [] => [j]
  | k :: rest =>
      if j.createdAt < k.createdAt then j :: k :: rest
      else k :: insertByCreatedAt j rest

/-- Sort a job list ascending by `createdAt`. -/
def sortByCreatedAt (l : List JobRow) : List JobRow :=
  l.foldr insertByCreatedAt []

/-- Startup-visible actions of the process and of `QueueWorker.start`. -/
inductive AppAction
  | makeStorageDirs (sub : String)
  | connectDb
  | reapZombies
  | recoverInFlight
  | pushFifo (jobId : String)
  | spawnWorker (i : Nat)
deriving Repr, DecidableEq

/-- Is the action the creation of a worker task? -/
def isSpawnWorker (a : AppAction) : Bool :=
  match a with
  | AppAction.spawnWorker _ => true
  | _ => false

/-- Result of `QueueWorker.start`: the durable table after recovery, the
registry after the ensure-live-entry loop, the ids pushed onto the in-memory
FIFO in push order, and the ordered action trace. -/
structure StartResult where
  db : List JobRow
  registry : Registry
  fifo : List String
  actions : List AppAction

/-- The ensure-live-entry step of the recovery loop (services/queue_worker.py
lines 70-74): `get_job`, and `create_job` only when absent. -/
def ensureLiveEntry (now : Int) (reg : Registry) (j : JobRow) : Registry :=
  match lookupJob reg j.jobId with
  | some _ => reg
  | none => (createJob reg now j.jobId).1

/-- `QueueWorker.start` (services/queue_worker.py lines 26-37): reap zombies,
flip the remaining `processing` rows to `queued`, re-read all `queued` rows
ascending by `createdAt`, ensure each has a live registry entry and push its
id onto the FIFO, and only then create the `num_workers` worker tasks. -/
def queueWorkerStart (now : Int) (numWorkers : Nat) (db0 : List JobRow)
    (reg0 : Registry) : StartResult :=
  let db1 := cleanupZombieJobs now db0
  let db2 := recoverFlip db1
  let queued := sortByCreatedAt (db2.filter (fun j => j.status == "queued"))
  let reg1 := queued.foldl (ensureLiveEntry now) reg0
  let fifo := queued.map (fun j => j.jobId)
  { db := db2, registry := reg1, fifo := fifo,
    actions := AppAction.reapZombies :: AppAction.recoverInFlight ::
      fifo.map AppAction.pushFifo ++ (List.range numWorkers).map AppAction.spawnWorker }

/-- The startup half of the application `lifespan` (main.py lines 12-18):
create the two storage directories and connect the database, then yield to
serve requests. Nothing else runs at startup — in particular
`queue_worker.start` is never invoked anywhere in the application. -/
def lifespanStartupActions : List AppAction :=
  [AppAction.makeStorageDirs "images", AppAction.makeStorageDirs "videos",
   AppAction.connectDb]

/-- `QueueWorker._process_image` (services/queue_worker.py lines 146-166)
with the outcome of the `generate_image` call expression supplied as
`callOutcome`: mark the durable row and the live entry processing, run the
call; on success create the asset row — whose data dict carries
`userId: job.userId` — then mark both stores completed; an exception
propagates to `_process_job`'s handler (lines 140-144), which marks both
stores failed with the exception text. -/
def workerProcessImage (row : JobRow) (callOutcome : Except String String)
    (newAssetId : Nat) (reg : Registry) : Registry × List Effect :=
  let reg1 := updateJob reg row.jobId (some "processing") none none none
  let base := [Effect.dbJobUpdate row.jobId (some "processing"),
    Effect.registryUpdate row.jobId (some "processing") none none none]
  match callOutcome with
  | Except.ok url =>
      let d : AssetCreateData :=
        { jobId := row.jobId, filePath := url, prompt := normalizePrompt row.prompt,
          model := row.model, assetType := "image", userId := some row.userId }
      (updateJob reg1 row.jobId (some "completed") (some newAssetId) (some url) none,
       base ++ [Effect.dbAssetCreate d,
         Effect.dbJobUpdate row.jobId (some "completed"),
         Effect.registryUpdate row.jobId (some "completed") (some newAssetId)
           (some url) none])
  | Except.error e =>
      (updateJob reg1 row.jobId (some "failed") none none (some e),
       base ++ [Effect.dbJobUpdate row.jobId (some "failed"),
         Effect.registryUpdate row.jobId (some "failed") none none (some e)])

/-- A `RefreshToken` row (services/auth.py; the `token` column is unique in
the schema). -/
structure RefreshTokenRow where
  id : Nat
  token : String
  userId : Nat
  expiresAt : Int
deriving Repr, DecidableEq

/-- Prisma `db.refreshtoken.find_unique(where={"token": t})` over the token
table (the column is unique, so first match is the match). -/
def findUniqueToken (db : List RefreshTokenRow) (t : String) : Option RefreshTokenRow :=
  db.find? (fun r => r.token == t)

/-- Payload of `create_access_token` (services/auth.py lines 25-28): subject
claim `str(user_id)` and absolute expiry `now` plus the configured minutes
(default 15). -/
structure AccessTokenPayload where
  sub : String
  exp : Int
deriving Repr, DecidableEq

/-- `ACCESS_TOKEN_EXPIRE_MINUTES` default (app/config.py line 13). -/
def ACCESS_TOKEN_EXPIRE_MINUTES : Int := 15

/-- `REFRESH_TOKEN_EXPIRE_DAYS` default (app/config.py line 14). -/
def REFRESH_TOKEN_EXPIRE_DAYS : Int := 7

/-- `create_access_token(user_id)` at time `now`. -/
def createAccessToken (now : Int) (userId : Nat) : AccessTokenPayload :=
  { sub := toString userId, exp := now + ACCESS_TOKEN_EXPIRE_MINUTES * 60 }

/-- Outcome of `rotate_refresh_token`: a fresh access/refresh pair, or an
HTTP 401 with the given detail string. -/
inductive RotateOutcome
  | ok (access : AccessTokenPayload) (newRefresh : String)
  | unauthorized (detail : String)
deriving Repr, DecidableEq

/-- The reuse sentinel detail of services/auth.py line 70. -/
def tokenReuseSentinel : String := "token_reuse_detected"

/-- `rotate_refresh_token(old_token)` (services/auth.py lines 56-87) at time
`now`, with the random token `uuid4()` and the row id Prisma assigns
supplied as `freshToken` and `freshId`: an absent token is treated as reuse
and answered 401 with the sentinel; an expired token is deleted and answered
401; otherwise the presented row is deleted and a new access/refresh pair is
minted, the new refresh row expiring `REFRESH_TOKEN_EXPIRE_DAYS` later. The
token table after the call is returned alongside the outcome. -/
def rotateRefreshToken (now : Int) (freshToken : String) (freshId : Nat)
    (db : List RefreshTokenRow) (oldToken : String) :
    RotateOutcome × List RefreshTokenRow :=
  match findUniqueToken db oldToken with
  | none => (RotateOutcome.unauthorized tokenReuseSentinel, db)
  | some rt =>
      if decide (rt.expiresAt < now) then
        (RotateOutcome.unauthorized "Refresh Token이 만료되었습니다.",
         db.filter (fun r => !(r.id == rt.id)))
      else
        let newRow : RefreshTokenRow :=
          { id := freshId, token := freshToken, userId := rt.userId,
            expiresAt := now + REFRESH_TOKEN_EXPIRE_DAYS * 24 * 3600 }
        (RotateOutcome.ok (createAccessToken now rt.userId) freshToken,
         db.filter (fun r => !(r.id == rt.id)) ++ [newRow])

/-- Does the effect touch the durable job queue machinery: a durable job-row
creation or a worker-FIFO enqueue? -/
def touchesDurableQueue (e : Effect) : Bool :=
  match e with
  | Effect.dbJobCreate _ => true
  | Effect.enqueueFifo _ => true
  | _ => false

/-- Was a `text_to_image` submission served from the cache: no option set and
a cache hit for the image fingerprint. -/
def imageServedFromCache (assets : List Asset) (req : ImageGenerateRequest) : Bool :=
  !imageRequestHasOptions req &&
    (find_cached_asset assets req.prompt req.model "image").isSome

/-- Status-trace checker: a terminal status (`completed` or `failed`) is
never followed by any further status. -/
def noTerminalExit : List String → Bool
  | [] => true
  | s :: rest =>
      if s == "completed" || s == "failed" then rest.isEmpty
      else noTerminalExit rest

/-- A concrete optionless text-to-image request. -/
def reqSword : ImageGenerateRequest :=
  { prompt := "a sword", model := "imagen-3.0-fast" }

/-- A concrete seeded asset row matching the normalized fingerprint of
`"  A Sword  "` / `imagen-3.0-fast` / `image` (spec scenario 1). -/
def assetOldSword : Asset :=
  { id := 1, userId := some 7, jobId := "old-job",
    filePath := some "/storage/images/old.png", prompt := "a sword",
    model := "imagen-3.0-fast", assetType := "image", createdAt := 100 }

/-- A concrete seeded video asset row matching the normalized fingerprint of
`"  A Dragon  "` / `veo-3.0-fast` / `video`. -/
def assetOldDragonVideo : Asset :=
  { id := 2, userId := some 7, jobId := "old-vid",
    filePath := some "/storage/videos/old.mp4", prompt := "a dragon",
    model := "veo-3.0-fast", assetType := "video", createdAt := 200 }

/-- A concrete optionless text-to-video submission whose prompt normalizes
to `"a dragon"`. -/
def reqDragonVideo : VideoGenerateRequest :=
  { prompt := "  A Dragon  ", model := "veo-3.0-fast" }

/-- The submission of spec scenario 1: prompt `"  A Sword  "` (normalizing
to `"a sword"`), no options. -/
def reqSwordSpaced : ImageGenerateRequest :=
  { prompt := "  A Sword  ", model := "imagen-3.0-fast" }

/-- Is the event a permit acquisition? -/
def isAcquire (e : PermitEv) : Bool :=
  match e with
  | PermitEv.acquire => true
  | _ => false

/-- Is the event a permit release? -/
def isRelease (e : PermitEv) : Bool :=
  match e with
  | PermitEv.release => true
  | _ => false

/-- Count the events satisfying `p`. -/
def countEv (p : PermitEv → Bool) (tr : List PermitEv) : Nat :=
  (tr.filter p).length

/-- Claim C8 (code_bug): the pattern `raiMediaFiltered` is listed in
`_SAFETY_PATTERNS`, yet because `_to_korean_safety_message` matches the
patterns against the **lowercased** error text and the pattern itself
contains upper-case letters, a provider error whose message is exactly
`raiMediaFiltered` is not translated: `_poll_operation` surfaces the raw
provider text instead of the fixed localized sentence. An all-lowercase
pattern such as `person` is translated, confirming the mechanism the dead
entry was meant to use. -/
theorem rai_pattern_dead_entry :
    ("raiMediaFiltered",
      "생성된 콘텐츠가 안전 정책(폭력, 선정성 등)에 의해 차단되었습니다.") ∈ SAFETY_PATTERNS
    ∧ toKoreanSafetyMessage "raiMediaFiltered" = none
    ∧ pollOperationErrorResult "raiMediaFiltered" =
        "Veo operation failed: raiMediaFiltered"
    ∧ toKoreanSafetyMessage "person" =
        some "특정 인물 생성이 정책에 의해 제한되었습니다. 프롬프트를 수정한 후 다시 시도해 주세요." := by
  refine ⟨by decide, by decide, by decide, by decide⟩

/-- Claim C3 (code_bug): on a submission whose image endpoint would answer
`429 RESOURCE_EXHAUSTED` twice and then bytes, the router's call
`generate_image(prompt, job_id, options=options)` raises a `TypeError` (the
method accepts no `options` keyword), so the endpoint is invoked 0 times, no
asset is created, and the job ends `failed` — while the retry machinery of
`generate_image` itself, invoked without the stray keyword, would succeed on
the third of exactly 3 endpoint calls. -/
theorem image_retry_scenario_blocked_by_call_site :
    (imagenCallSite behRetryTwice "job-1").2 = Except.error imagenCallTypeErrorMsg
    ∧ callCount (imagenCallSite behRetryTwice "job-1").1 = 0
    ∧ statusTrace (processImageGeneration (imagenCallSite behRetryTwice "job-1").2
        "job-1" "a sword" "imagen-3.0-fast" 1 (createJob [] 0 "job-1").1).2 =
        ["processing", "failed"]
    ∧ assetCreates (processImageGeneration (imagenCallSite behRetryTwice "job-1").2
        "job-1" "a sword" "imagen-3.0-fast" 1 (createJob [] 0 "job-1").1).2 = []
    ∧ (generateImage "job-1" behRetryTwice).2 = Except.ok "/storage/images/job-1.png"
    ∧ callCount (generateImage "job-1" behRetryTwice).1 = 3 := by
  refine ⟨rfl, by decide, by decide, by decide, rfl, by decide⟩

/-- Claim C2 counterexample: an optionless submission with an empty asset
table is not served from the cache, yet its handler run produces no durable
job-row write and no worker-FIFO enqueue — only the live registry entry and
the background-task scheduling. -/
theorem cache_miss_submission_writes_no_durable_record :
    imageServedFromCache [] reqSword = false
    ∧ (text_to_image [] [] 0 "job-1" reqSword).effects =
        [Effect.registryCreate "job-1", Effect.scheduleTask "job-1"]
    ∧ ((text_to_image [] [] 0 "job-1" reqSword).effects.all
        (fun e => !touchesDurableQueue e)) = true := by
  refine ⟨by decide, by decide, by decide⟩

/-- Claim C2 (corrected): every submission not served from the cache creates
exactly one live registry entry and schedules one in-process background
task; it writes no persistent job record and enqueues nothing on the worker
FIFO, and it answers `pending`. -/
theorem cache_miss_submission_live_entry_and_task_only (assets : List Asset)
    (reg : Registry) (now : Int) (newJobId : String) (req : ImageGenerateRequest)
    (h : imageServedFromCache assets req = false) :
    (text_to_image assets reg now newJobId req).effects =
      [Effect.registryCreate newJobId, Effect.scheduleTask newJobId]
    ∧ (text_to_image assets reg now newJobId req).response.status = "pending"
    ∧ (text_to_image assets reg now newJobId req).task =
        some { jobId := newJobId, prompt := req.prompt, model := req.model } := by
  unfold imageServedFromCache at h
  unfold text_to_image
  cases hopt : imageRequestHasOptions req with
  | true => exact ⟨rfl, rfl, rfl⟩
  | false =>
      simp only [hopt, Bool.not_false, Bool.true_and] at h
      cases hc : find_cached_asset assets req.prompt req.model "image" with
      | some hit => rw [hc] at h; simp at h
      | none => simp only [hc]; exact ⟨rfl, rfl, rfl⟩

/-- Witness for `cache_miss_submission_live_entry_and_task_only` at a
concrete cache-miss input. -/
theorem cache_miss_submission_live_entry_and_task_only_witness :
    (text_to_image [] [] 0 "job-1" reqSword).effects =
      [Effect.registryCreate "job-1", Effect.scheduleTask "job-1"]
    ∧ (text_to_image [] [] 0 "job-1" reqSword).response.status = "pending"
    ∧ (text_to_image [] [] 0 "job-1" reqSword).task =
        some { jobId := "job-1", prompt := reqSword.prompt, model := reqSword.model } :=
  cache_miss_submission_live_entry_and_task_only [] [] 0 "job-1" reqSword (by decide)

/-- Claim C4 counterexample: a POST to `/api/generate/text-to-image` with no
`Authorization` header at all is answered 200 and creates a live job — it is
neither rejected with 401/403 nor prevented from creating a job. -/
theorem text_to_image_without_bearer_creates_job :
    (text_to_image_route none [] [] 0 "job-1" reqSword).1 = 200
    ∧ Effect.registryCreate "job-1" ∈
        (text_to_image_route none [] [] 0 "job-1" reqSword).2.effects := by
  refine ⟨rfl, by decide⟩

/-- Claim C4 (corrected): the three generation endpoints declare no
authentication dependency: each route's result is the same for every bearer
value (including a missing bearer), every run answers 200, and a live job —
which records no owning user — is always created. -/
theorem generate_routes_ignore_bearer (auth : Option String) (assets : List Asset)
    (reg : Registry) (now : Int) (newJobId : String) (reqI : ImageGenerateRequest)
    (reqV : VideoGenerateRequest) (prompt model : String) :
    text_to_image_route auth assets reg now newJobId reqI =
      text_to_image_route none assets reg now newJobId reqI
    ∧ (text_to_image_route auth assets reg now newJobId reqI).1 = 200
    ∧ Effect.registryCreate newJobId ∈
        (text_to_image_route auth assets reg now newJobId reqI).2.effects
    ∧ text_to_video_route auth assets reg now newJobId reqV =
        text_to_video_route none assets reg now newJobId reqV
    ∧ (text_to_video_route auth assets reg now newJobId reqV).1 = 200
    ∧ Effect.registryCreate newJobId ∈
        (text_to_video_route auth assets reg now newJobId reqV).2.effects
    ∧ image_to_video_route auth reg now newJobId prompt model =
        image_to_video_route none reg now newJobId prompt model
    ∧ (image_to_video_route auth reg now newJobId prompt model).1 = 200
    ∧ Effect.registryCreate newJobId ∈
        (image_to_video_route auth reg now newJobId prompt model).2.effects := by
  have hmem : ∀ (r : Registry) (p m : String),
      Effect.registryCreate newJobId ∈ (generateMissPath r now newJobId p m).effects := by
    intro r p m
    simp [generateMissPath]
  refine ⟨rfl, rfl, ?_, rfl, rfl, ?_, rfl, rfl, ?_⟩
  · unfold text_to_image_route text_to_image
    cases imageRequestHasOptions reqI
    · simp only [Bool.false_eq_true, if_false]
      cases find_cached_asset assets reqI.prompt reqI.model "image"
      · exact hmem reg reqI.prompt reqI.model
      · simp
    · exact hmem reg reqI.prompt reqI.model
  · unfold text_to_video_route text_to_video
    cases videoRequestHasOptions reqV
    · simp only [Bool.false_eq_true, if_false]
      cases find_cached_asset assets reqV.prompt reqV.model "video"
      · exact hmem reg reqV.prompt reqV.model
      · simp
    · exact hmem reg reqV.prompt reqV.model
  · exact hmem reg prompt model

/-- Claim C5 counterexample: the asset row created by the router background
task `process_image_generation` on a successful generation carries no
`userId` key at all, so it does not carry the owning user id of any job. -/
theorem background_task_asset_has_no_userId :
    (assetCreates (processImageGeneration (Except.ok "/storage/images/j1.png")
        "j1" "a sword" "imagen-3.0-fast" 5 []).2).map
      (fun d => d.userId) = [none] := by
  decide

/-- Claim C5 (corrected): of the two asset-creation sites, only the queue
worker's `_process_image` stamps the produced asset with the processed job
row's `userId`; the router background task `process_image_generation`
creates its asset with no `userId` key. -/
theorem asset_userId_by_creation_site (row : JobRow) (url : String)
    (newAssetId : Nat) (reg : Registry) (jobId prompt model : String)
    (newAssetId2 : Nat) (reg2 : Registry) :
    ((assetCreates (workerProcessImage row (Except.ok url) newAssetId reg).2).all
      (fun d => d.userId == some row.userId)) = true
    ∧ ((assetCreates (processImageGeneration (Except.ok url) jobId prompt model
        newAssetId2 reg2).2).all (fun d => d.userId == none)) = true := by
  constructor
  · simp [workerProcessImage, assetCreates]
  · simp [processImageGeneration, assetCreates]

/-- Claim C6 counterexample: a live job is created with status `pending`
(not `queued`), and on a cache hit the status moves directly from `pending`
to `completed`, skipping `processing`. -/
theorem job_created_pending_not_queued :
    ((createJob [] 0 "job-1").2).status = "pending"
    ∧ ¬ ((createJob [] 0 "job-1").2).status = "queued"
    ∧ statusTrace (text_to_image [assetOldSword] [] 0 "job-1"
        { prompt := "  A Sword  ", model := "imagen-3.0-fast" }).effects =
        ["pending", "completed"] := by
  refine ⟨rfl, by decide, by decide⟩

/-- Claim C6 (corrected): along every run of a text-to-image submission
(handler plus its background task, for any call outcome), the live status
sequence is `pending → completed` (cache hit), `pending → processing →
completed`, or `pending → processing → failed`, and a terminal status is
never followed by a further transition. -/
theorem text_to_image_status_dag (assets : List Asset) (reg : Registry)
    (now : Int) (newJobId : String) (req : ImageGenerateRequest)
    (callOutcome : Except String String) (newAssetId : Nat) :
    (statusTrace (runTextToImage assets reg now newJobId req callOutcome newAssetId).2.2 =
        ["pending", "completed"]
      ∨ statusTrace (runTextToImage assets reg now newJobId req callOutcome newAssetId).2.2 =
        ["pending", "processing", "completed"]
      ∨ statusTrace (runTextToImage assets reg now newJobId req callOutcome newAssetId).2.2 =
        ["pending", "processing", "failed"])
    ∧ noTerminalExit
        (statusTrace (runTextToImage assets reg now newJobId req callOutcome newAssetId).2.2) =
      true := by
  have hmiss : ∀ (r : Registry) (p m : String),
      statusTrace ((generateMissPath r now newJobId p m).effects ++
        (processImageGeneration callOutcome newJobId p m newAssetId
          (generateMissPath r now newJobId p m).registry).2) =
      "pending" :: statusTrace (processImageGeneration callOutcome newJobId p m newAssetId
          (generateMissPath r now newJobId p m).registry).2 := by
    intro r p m
    simp [generateMissPath, statusTrace]
  unfold runTextToImage text_to_image
  cases hopt : imageRequestHasOptions req with
  | true =>
      simp only [if_true]
      cases callOutcome with
      | ok url =>
          constructor
          · right; left; simp [generateMissPath, processImageGeneration, statusTrace]
          · simp [generateMissPath, processImageGeneration, statusTrace, noTerminalExit]
      | error e =>
          constructor
          · right; right; simp [generateMissPath, processImageGeneration, statusTrace]
          · simp [generateMissPath, processImageGeneration, statusTrace, noTerminalExit]
  | false =>
      simp only [Bool.false_eq_true, if_false]
      cases hc : find_cached_asset assets req.prompt req.model "image" with
      | some hit =>
          constructor
          · left; simp [statusTrace]
          · simp [statusTrace, noTerminalExit]
      | none =>
          cases callOutcome with
          | ok url =>
              constructor
              · right; left; simp [generateMissPath, processImageGeneration, statusTrace]
              · simp [generateMissPath, processImageGeneration, statusTrace, noTerminalExit]
          | error e =>
              constructor
              · right; right; simp [generateMissPath, processImageGeneration, statusTrace]
              · simp [generateMissPath, processImageGeneration, statusTrace, noTerminalExit]

/-- Every trace of the `generate_image` retry loop passes the permit
discipline scan: each attempt acquires the free permit, calls the endpoint
under it, and releases it when the `async with` block exits; every backoff
sleep and the end of the run see the permit free. -/
theorem permitScan_generateImageLoop (beh : Nat → Except String String) :
    ∀ (r n : Nat), permitScan 0 (generateImageLoop beh n r).1 = true := by
  intro r
  induction r using Nat.strong_induction_on with
  | _ r ih =>
    intro n
    match r with
    | 0 => simp [generateImageLoop, permitScan]
    | 1 =>
        simp only [generateImageLoop, imagenAttempt]
        cases beh n <;> simp [permitScan]
    | r + 2 =>
        simp only [generateImageLoop, imagenAttempt]
        cases beh n with
        | ok v => simp [permitScan]
        | error msg =>
            cases hc : classifyImagenError msg with
            | retryable m =>
                have hrec := ih (r + 1) (by omega) (n + 1)
                simp [hc, permitScan, hrec]
            | nonRetryable m => simp [hc, permitScan]

/-- In every trace of the `generate_image` retry loop the numbers of permit
acquisitions, permit releases and endpoint calls coincide. -/
theorem counts_generateImageLoop (beh : Nat → Except String String) :
    ∀ (r n : Nat),
      countEv isAcquire (generateImageLoop beh n r).1 =
        callCount (generateImageLoop beh n r).1
      ∧ countEv isRelease (generateImageLoop beh n r).1 =
        callCount (generateImageLoop beh n r).1 := by
  intro r
  induction r using Nat.strong_induction_on with
  | _ r ih =>
    intro n
    match r with
    | 0 => simp [generateImageLoop, countEv, callCount]
    | 1 =>
        simp only [generateImageLoop, imagenAttempt]
        cases beh n <;> simp [countEv, callCount, isAcquire, isRelease]
    | r + 2 =>
        simp only [generateImageLoop, imagenAttempt]
        cases beh n with
        | ok v => simp [countEv, callCount, isAcquire, isRelease]
        | error msg =>
            cases hc : classifyImagenError msg with
            | retryable m =>
                have hrec := ih (r + 1) (by omega) (n + 1)
                simp [hc, countEv, callCount, isAcquire, isRelease,
                  List.filter_append] at hrec ⊢
                omega
            | nonRetryable m => simp [hc, countEv, callCount, isAcquire, isRelease]

/-- Claim C7 counterexample: with one retryable failure followed by success,
the permit trace of `generate_image` is acquire / call / release / backoff /
acquire / call / release — the permit is released before the backoff sleep
and re-acquired for the second attempt, so it is not the case that a single
permit acquisition is held across the backoff wait and released exactly
once. -/
theorem permit_not_held_across_backoff :
    (generateImage "job-1" behRetryOnce).1 =
      [PermitEv.acquire, PermitEv.call 0, PermitEv.release, PermitEv.backoffWait 0,
       PermitEv.acquire, PermitEv.call 1, PermitEv.release]
    ∧ heldAcrossRetriesOnce (generateImage "job-1" behRetryOnce).1 = false := by
  refine ⟨by decide, by decide⟩

/-- Claim C7 (corrected): because the retry decorator wraps the whole
`async with IMAGE_SEMAPHORE` block, `generate_image` acquires the permit at
the start of each attempt, holds it during the remote call, and releases it
when the attempt's block exits — before any backoff sleep; every run
balances acquisitions, releases and endpoint calls and ends with the permit
free. -/
theorem generate_image_permit_per_attempt (jobId : String)
    (beh : Nat → Except String String) :
    permitScan 0 (generateImage jobId beh).1 = true
    ∧ countEv isAcquire (generateImage jobId beh).1 =
        callCount (generateImage jobId beh).1
    ∧ countEv isRelease (generateImage jobId beh).1 =
        callCount (generateImage jobId beh).1 := by
  have h1 := permitScan_generateImageLoop beh MAX_IMAGE_ATTEMPTS 0
  have h2 := counts_generateImageLoop beh MAX_IMAGE_ATTEMPTS 0
  unfold generateImage
  cases hl : generateImageLoop beh 0 MAX_IMAGE_ATTEMPTS with
  | mk tr res =>
      rw [hl] at h1 h2
      cases res <;> exact ⟨h1, h2⟩

/-- Fold invariant of `newestMatch`: a `some` result satisfies the query
(unless it was already the accumulator), dominates the `createdAt` of every
matching element of the scanned list, and dominates the accumulator. -/
theorem newestMatch_go (q : Asset → Bool) :
    ∀ (l : List Asset) (acc : Option Asset) (a : Asset),
      l.foldl (fun acc x =>
        if q x then
          match acc with
          | none => some x
          | some b => if b.createdAt < x.createdAt then some x else some b
        else acc) acc = some a →
      (acc = some a ∨ (a ∈ l ∧ q a = true))
      ∧ (∀ b ∈ l, q b = true → b.createdAt ≤ a.createdAt)
      ∧ (∀ a0, acc = some a0 → a0.createdAt ≤ a.createdAt) := by
  intro l
  induction l with
  | nil =>
      intro acc a h
      simp only [List.foldl_nil] at h
      refine ⟨Or.inl h, by simp, fun a0 h0 => ?_⟩
      rw [h] at h0
      cases h0
      exact le_refl _
  | cons c cs ih =>
      intro acc a h
      simp only [List.foldl_cons] at h
      have IH := ih _ a h
      have hmono : ∀ a0, acc = some a0 →
          ∃ a1, (if q c then
              match acc with
              | none => some c
              | some b => if b.createdAt < c.createdAt then some c else some b
            else acc) = some a1 ∧ a0.createdAt ≤ a1.createdAt := by
        intro a0 h0
        subst h0
        by_cases hq : q c = true
        · simp only [hq, if_true]
          by_cases hlt : a0.createdAt < c.createdAt
          · exact ⟨c, by simp [hlt], le_of_lt hlt⟩
          · exact ⟨a0, by simp [hlt], le_refl _⟩
        · simp only [Bool.not_eq_true] at hq
          exact ⟨a0, by simp [hq], le_refl _⟩
      have hstep : q c = true →
          ∃ a1, (if q c then
              match acc with
              | none => some c
              | some b => if b.createdAt < c.createdAt then some c else some b
            else acc) = some a1 ∧ c.createdAt ≤ a1.createdAt := by
        intro hq
        cases acc with
        | none => exact ⟨c, by simp [hq], le_refl _⟩
        | some b =>
            by_cases hlt : b.createdAt < c.createdAt
            · exact ⟨c, by simp [hq, hlt], le_refl _⟩
            · exact ⟨b, by simp [hq, hlt], le_of_not_lt hlt⟩
      refine ⟨?_, ?_, ?_⟩
      · rcases IH.1 with hacc | hin
        · by_cases hq : q c = true
          · cases hc : acc with
            | none =>
                rw [hc] at hacc
                simp only [hq, if_true] at hacc
                cases hacc
                exact Or.inr ⟨List.mem_cons_self _ _, hq⟩
            | some b =>
                rw [hc] at hacc
                simp only [hq, if_true] at hacc
                by_cases hlt : b.createdAt < c.createdAt
                · simp only [hlt, if_true] at hacc
                  cases hacc
                  exact Or.inr ⟨List.mem_cons_self _ _, hq⟩
                · simp only [hlt, if_false] at hacc
                  exact Or.inl hacc
          · simp only [Bool.not_eq_true] at hq
            simp only [hq, Bool.false_eq_true, if_false] at hacc
            exact Or.inl hacc
        · exact Or.inr ⟨List.mem_cons_of_mem _ hin.1, hin.2⟩
      · intro b hb hqb
        rcases List.mem_cons.mp hb with rfl | hbcs
        · rcases hstep hqb with ⟨a1, ha1, hle⟩
          exact le_trans hle (IH.2.2 a1 ha1)
        · exact IH.2.1 b hbcs hqb
      · intro a0 h0
        rcases hmono a0 h0 with ⟨a1, ha1, hle⟩
        exact le_trans hle (IH.2.2 a1 ha1)

/-- The `newestMatch` fold, once it holds a `some`, keeps a `some`. -/
theorem newestMatch_go_isSome (q : Asset → Bool) :
    ∀ (l : List Asset) (acc : Asset),
      (l.foldl (fun acc x =>
        if q x then
          match acc with
          | none => some x
          | some b => if b.createdAt < x.createdAt then some x else some b
        else acc) (some acc)).isSome = true := by
  intro l
  induction l with
  | nil => intro acc; rfl
  | cons c cs ih =>
      intro acc
      simp only [List.foldl_cons]
      by_cases hq : q c = true
      · by_cases hlt : acc.createdAt < c.createdAt
        · simpa [hq, hlt] using ih c
        · simpa [hq, hlt] using ih acc
      · simp only [Bool.not_eq_true] at hq
        simpa [hq] using ih acc

/-- If some element of the list matches, `newestMatch` returns a row. -/
theorem newestMatch_isSome (q : Asset → Bool) (l : List Asset) (a : Asset)
    (ha : a ∈ l) (hq : q a = true) : (newestMatch l q).isSome = true := by
  unfold newestMatch
  induction l with
  | nil => cases ha
  | cons c cs ih =>
      simp only [List.foldl_cons]
      rcases List.mem_cons.mp ha with rfl | hacs
      · simp only [hq]
        exact newestMatch_go_isSome q cs a
      · by_cases hqc : q c = true
        · simp only [hqc, if_true]
          exact newestMatch_go_isSome q cs c
        · simp only [Bool.not_eq_true] at hqc
          simpa [hqc] using ih hacs

/-- Specification of `newestMatch`: a returned row matches the query and has
the greatest `createdAt` among all matching rows. -/
theorem newestMatch_spec (q : Asset → Bool) (l : List Asset) (a : Asset)
    (h : newestMatch l q = some a) :
    a ∈ l ∧ q a = true ∧ ∀ b ∈ l, q b = true → b.createdAt ≤ a.createdAt := by
  unfold newestMatch at h
  have hgo := newestMatch_go q l none a h
  rcases hgo.1 with hnone | hin
  · cases hnone
  · exact ⟨hin.1, hin.2, hgo.2.1⟩

/-- Cache-hit behaviour of `text_to_image`: an optionless text-to-image
submission whose normalized prompt, model and the `image` modality match at
least one asset row (all matching rows carrying a usable `filePath`, as
every row the backend writes does) is answered `completed`; the live job
records the id and file path of a newest matching asset, no background task
is scheduled, and the handler performs no effect beyond the two registry
writes — in particular the remote provider is not called. -/
theorem text_to_image_cache_hit_lemma (assets : List Asset)
    (reg : Registry) (now : Int) (newJobId : String) (req : ImageGenerateRequest)
    (hopt : imageRequestHasOptions req = false)
    (hmatch : ∃ a ∈ assets, fingerprintMatch a req.prompt req.model "image" = true)
    (hpath : ∀ a ∈ assets, fingerprintMatch a req.prompt req.model "image" = true →
      truthyPath a.filePath = true) :
    ∃ a fp, a ∈ assets ∧ fingerprintMatch a req.prompt req.model "image" = true
      ∧ (∀ b ∈ assets, fingerprintMatch b req.prompt req.model "image" = true →
          b.createdAt ≤ a.createdAt)
      ∧ a.filePath = some fp
      ∧ (text_to_image assets reg now newJobId req).response.status = "completed"
      ∧ lookupJob (text_to_image assets reg now newJobId req).registry newJobId =
          some { job_id := newJobId, status := "completed", asset_id := some a.id,
                 result_url := some fp, error_message := none, created_at := now }
      ∧ (text_to_image assets reg now newJobId req).task = none
      ∧ (text_to_image assets reg now newJobId req).effects =
          [Effect.registryCreate newJobId,
           Effect.registryUpdate newJobId (some "completed") (some a.id)
             (some fp) none] := by
  rcases hmatch with ⟨a0, ha0, hq0⟩
  have hsome := newestMatch_isSome
    (fun x => fingerprintMatch x req.prompt req.model "image") assets a0 ha0 hq0
  rcases Option.isSome_iff_exists.mp hsome with ⟨a, ha⟩
  have hspec := newestMatch_spec _ assets a ha
  have htr : truthyPath a.filePath = true := hpath a hspec.1 hspec.2.1
  cases hfp : a.filePath with
  | none => rw [hfp] at htr; cases htr
  | some fp =>
      have htr2 : truthyPath (some fp) = true := by rw [← hfp]; exact htr
      have hfind : find_cached_asset assets req.prompt req.model "image" =
          some (a.id, fp) := by
        unfold find_cached_asset
        rw [ha]
        simp [hfp, htr2]
      refine ⟨a, fp, hspec.1, hspec.2.1, hspec.2.2, hfp, ?_, ?_, ?_, ?_⟩
      · unfold text_to_image
        simp [hopt, hfind]
      · unfold text_to_image
        simp only [hopt, Bool.false_eq_true, if_false, hfind]
        simp [lookupJob, updateJob, createJob, applyJobUpdate]
      · unfold text_to_image
        simp [hopt, hfind]
      · unfold text_to_image
        simp [hopt, hfind]

/-- Cache-hit behaviour of `text_to_video`: an optionless text-to-video
submission whose normalized prompt, model and the `image` modality match at
least one asset row (all matching rows carrying a usable `filePath`, as
every row the backend writes does) is answered `completed`; the live job
records the id and file path of a newest matching asset, no background task
is scheduled, and the handler performs no effect beyond the two registry
writes — in particular the remote provider is not called. -/
theorem text_to_video_cache_hit_lemma (assets : List Asset)
    (reg : Registry) (now : Int) (newJobId : String) (req : VideoGenerateRequest)
    (hopt : videoRequestHasOptions req = false)
    (hmatch : ∃ a ∈ assets, fingerprintMatch a req.prompt req.model "video" = true)
    (hpath : ∀ a ∈ assets, fingerprintMatch a req.prompt req.model "video" = true →
      truthyPath a.filePath = true) :
    ∃ a fp, a ∈ assets ∧ fingerprintMatch a req.prompt req.model "video" = true
      ∧ (∀ b ∈ assets, fingerprintMatch b req.prompt req.model "video" = true →
          b.createdAt ≤ a.createdAt)
      ∧ a.filePath = some fp
      ∧ (text_to_video assets reg now newJobId req).response.status = "completed"
      ∧ lookupJob (text_to_video assets reg now newJobId req).registry newJobId =
          some { job_id := newJobId, status := "completed", asset_id := some a.id,
                 result_url := some fp, error_message := none, created_at := now }
      ∧ (text_to_video assets reg now newJobId req).task = none
      ∧ (text_to_video assets reg now newJobId req).effects =
          [Effect.registryCreate newJobId,
           Effect.registryUpdate newJobId (some "completed") (some a.id)
             (some fp) none] := by
  rcases hmatch with ⟨a0, ha0, hq0⟩
  have hsome := newestMatch_isSome
    (fun x => fingerprintMatch x req.prompt req.model "video") assets a0 ha0 hq0
  rcases Option.isSome_iff_exists.mp hsome with ⟨a, ha⟩
  have hspec := newestMatch_spec _ assets a ha
  have htr : truthyPath a.filePath = true := hpath a hspec.1 hspec.2.1
  cases hfp : a.filePath with
  | none => rw [hfp] at htr; cases htr
  | some fp =>
      have htr2 : truthyPath (some fp) = true := by rw [← hfp]; exact htr
      have hfind : find_cached_asset assets req.prompt req.model "video" =
          some (a.id, fp) := by
        unfold find_cached_asset
        rw [ha]
        simp [hfp, htr2]
      refine ⟨a, fp, hspec.1, hspec.2.1, hspec.2.2, hfp, ?_, ?_, ?_, ?_⟩
      · unfold text_to_video
        simp [hopt, hfind]
      · unfold text_to_video
        simp only [hopt, Bool.false_eq_true, if_false, hfind]
        simp [lookupJob, updateJob, createJob, applyJobUpdate]
      · unfold text_to_video
        simp [hopt, hfind]
      · unfold text_to_video
        simp [hopt, hfind]

/-- Claim C10 (confirmed): after a successful rotation of a refresh token —
which deletes the presented row and mints a fresh pair — presenting the same
token again finds no row and is answered 401 with the distinct reuse
sentinel. (The token column is unique, and the freshly minted token differs
from the presented one.) -/
theorem refresh_token_reuse_after_rotation (now now2 : Int)
    (fresh fresh2 : String) (fid fid2 : Nat) (db : List RefreshTokenRow)
    (old : String) (acc : AccessTokenPayload) (nr : String)
    (hdistinct : List.Pairwise (fun a b => a.token ≠ b.token) db)
    (hfresh : fresh ≠ old)
    (hok : (rotateRefreshToken now fresh fid db old).1 = RotateOutcome.ok acc nr) :
    (rotateRefreshToken now2 fresh2 fid2
      (rotateRefreshToken now fresh fid db old).2 old).1 =
      RotateOutcome.unauthorized tokenReuseSentinel := by
  have hex : ∃ rt, findUniqueToken db old = some rt ∧ ¬ (rt.expiresAt < now) := by
    unfold rotateRefreshToken at hok
    cases hfind : findUniqueToken db old with
    | none => rw [hfind] at hok; simp at hok
    | some rt =>
        rw [hfind] at hok
        by_cases hexp : rt.expiresAt < now
        · simp [hexp] at hok
        · exact ⟨rt, rfl, hexp⟩
  rcases hex with ⟨rt, hfind, hexp⟩
  have hdb2 : (rotateRefreshToken now fresh fid db old).2 =
      db.filter (fun r => !(r.id == rt.id)) ++
        [{ id := fid, token := fresh, userId := rt.userId,
           expiresAt := now + REFRESH_TOKEN_EXPIRE_DAYS * 24 * 3600 }] := by
    unfold rotateRefreshToken
    rw [hfind]
    simp [hexp]
  have hrtmem : rt ∈ db := by
    unfold findUniqueToken at hfind
    exact List.mem_of_find?_eq_some hfind
  have hrttok : rt.token = old := by
    unfold findUniqueToken at hfind
    have hp := List.find?_some hfind
    exact eq_of_beq hp
  have hnone : findUniqueToken
      (db.filter (fun r => !(r.id == rt.id)) ++
        [{ id := fid, token := fresh, userId := rt.userId,
           expiresAt := now + REFRESH_TOKEN_EXPIRE_DAYS * 24 * 3600 }]) old =
      none := by
    unfold findUniqueToken
    rw [List.find?_eq_none]
    intro x hx
    rcases List.mem_append.mp hx with hxl | hxr
    · rcases List.mem_filter.mp hxl with ⟨hxdb, hxid⟩
      intro habs
      have hxtok : x.token = old := eq_of_beq habs
      by_cases hxrt : x = rt
      · subst hxrt
        simp at hxid
      · have hsymm : Symmetric (fun (a b : RefreshTokenRow) => a.token ≠ b.token) := by
          intro a b h
          exact Ne.symm h
        have hne := List.Pairwise.forall hsymm hdistinct hxdb hrtmem hxrt
        exact hne (hxtok.trans hrttok.symm)
    · intro habs
      rcases List.mem_singleton.mp hxr with rfl
      exact hfresh (eq_of_beq habs)
  rw [hdb2]
  unfold rotateRefreshToken
  rw [hnone]

/-- Witness for `refresh_token_reuse_after_rotation`: one stored token
`tokA`; its rotation succeeds, and the second presentation is answered with
the reuse sentinel. -/
theorem refresh_token_reuse_after_rotation_witness :
    (rotateRefreshToken 600 "tokC" 3
      (rotateRefreshToken 500 "tokB" 2
        [{ id := 1, token := "tokA", userId := 7, expiresAt := 1000 }] "tokA").2
      "tokA").1 = RotateOutcome.unauthorized tokenReuseSentinel :=
  refresh_token_reuse_after_rotation 500 600 "tokB" "tokC" 2 3
    [{ id := 1, token := "tokA", userId := 7, expiresAt := 1000 }] "tokA"
    { sub := "7", exp := 1400 } "tokB" (by simp) (by decide) (by decide)

/-- Membership through one insertion step of the `createdAt` sort. -/
theorem mem_insertByCreatedAt (j a : JobRow) :
    ∀ (l : List JobRow), a ∈ insertByCreatedAt j l ↔ a = j ∨ a ∈ l := by
  intro l
  induction l with
  | nil => simp [insertByCreatedAt]
  | cons k rest ih =>
      unfold insertByCreatedAt
      by_cases h : j.createdAt < k.createdAt
      · rw [if_pos h]
        simp [List.mem_cons]
      · rw [if_neg h]
        simp [List.mem_cons, ih]
        tauto

/-- Sorting by `createdAt` does not change membership. -/
theorem mem_sortByCreatedAt (a : JobRow) :
    ∀ (l : List JobRow), a ∈ sortByCreatedAt l ↔ a ∈ l := by
  intro l
  induction l with
  | nil => simp [sortByCreatedAt]
  | cons k rest ih =>
      unfold sortByCreatedAt at *
      simp only [List.foldr_cons, mem_insertByCreatedAt, List.mem_cons, ih]

/-- One insertion step preserves the `createdAt`-ascending ordering. -/
theorem pairwise_insertByCreatedAt (j : JobRow) :
    ∀ (l : List JobRow),
      List.Pairwise (fun a b => a.createdAt ≤ b.createdAt) l →
      List.Pairwise (fun a b => a.createdAt ≤ b.createdAt) (insertByCreatedAt j l) := by
  intro l
  induction l with
  | nil => intro _; simp [insertByCreatedAt]
  | cons k rest ih =>
      intro hp
      rcases List.pairwise_cons.mp hp with ⟨hk, hrest⟩
      unfold insertByCreatedAt
      by_cases h : j.createdAt < k.createdAt
      · rw [if_pos h]
        refine List.pairwise_cons.mpr ⟨?_, hp⟩
        intro b hb
        rcases List.mem_cons.mp hb with rfl | hbr
        · exact le_of_lt h
        · exact le_trans (le_of_lt h) (hk b hbr)
      · rw [if_neg h]
        refine List.pairwise_cons.mpr ⟨?_, ih hrest⟩
        intro b hb
        rcases (mem_insertByCreatedAt j b rest).mp hb with rfl | hbr
        · exact le_of_not_lt h
        · exact hk b hbr

/-- The recovery sort is ascending in `createdAt`. -/
theorem pairwise_sortByCreatedAt :
    ∀ (l : List JobRow),
      List.Pairwise (fun a b => a.createdAt ≤ b.createdAt) (sortByCreatedAt l) := by
  intro l
  induction l with
  | nil => simp [sortByCreatedAt]
  | cons k rest ih => exact pairwise_insertByCreatedAt k _ ih

/-- Registry lookup through one insertion. -/
theorem lookupJob_cons (id : String) (j : JobInfo) (reg : Registry) (s : String) :
    lookupJob ((id, j) :: reg) s =
      if (id == s) = true then some j else lookupJob reg s := by
  unfold lookupJob
  cases h : id == s with
  | true => simp [List.find?_cons, h]
  | false => simp [List.find?_cons, h]

/-- The ensure-live-entry step never removes a registry entry. -/
theorem ensureLiveEntry_preserves (now : Int) (reg : Registry) (j : JobRow)
    (s : String) (h : (lookupJob reg s).isSome = true) :
    (lookupJob (ensureLiveEntry now reg j) s).isSome = true := by
  unfold ensureLiveEntry
  cases hl : lookupJob reg j.jobId with
  | some x => exact h
  | none =>
      unfold createJob
      rw [lookupJob_cons]
      cases hjs : j.jobId == s with
      | true => simp
      | false => simp [h]

/-- After the ensure-live-entry step the row's own id is registered. -/
theorem ensureLiveEntry_self (now : Int) (reg : Registry) (j : JobRow) :
    (lookupJob (ensureLiveEntry now reg j) j.jobId).isSome = true := by
  unfold ensureLiveEntry
  cases hl : lookupJob reg j.jobId with
  | some x => simp [hl]
  | none =>
      unfold createJob
      rw [lookupJob_cons]
      simp

/-- The ensure-live-entry fold never removes a registry entry. -/
theorem lookupJob_foldl_ensure_preserves (now : Int) :
    ∀ (l : List JobRow) (reg : Registry) (s : String),
      (lookupJob reg s).isSome = true →
      (lookupJob (l.foldl (ensureLiveEntry now) reg) s).isSome = true := by
  intro l
  induction l with
  | nil => intro reg s h; exact h
  | cons c cs ih =>
      intro reg s h
      exact ih _ _ (ensureLiveEntry_preserves now reg c s h)

/-- After the ensure-live-entry fold every processed row is registered. -/
theorem lookupJob_foldl_ensure (now : Int) :
    ∀ (l : List JobRow) (reg : Registry) (j : JobRow), j ∈ l →
      (lookupJob (l.foldl (ensureLiveEntry now) reg) j.jobId).isSome = true := by
  intro l
  induction l with
  | nil => intro reg j h; cases h
  | cons c cs ih =>
      intro reg j h
      rcases List.mem_cons.mp h with rfl | hcs
      · exact lookupJob_foldl_ensure_preserves now cs _ _ (ensureLiveEntry_self now reg j)
      · exact ih _ _ hcs

/-- Claim C1 counterexample: the application startup (`lifespan` of main.py)
only creates the storage directories and connects the database; it performs
no zombie reaping and no in-flight recovery and spawns no worker — the
recovery procedure does not run at process startup because nothing in the
application invokes `queue_worker.start`. -/
theorem lifespan_startup_runs_no_recovery :
    lifespanStartupActions =
      [AppAction.makeStorageDirs "images", AppAction.makeStorageDirs "videos",
       AppAction.connectDb]
    ∧ AppAction.reapZombies ∉ lifespanStartupActions
    ∧ AppAction.recoverInFlight ∉ lifespanStartupActions
    ∧ lifespanStartupActions.all (fun a => !isSpawnWorker a) = true := by
  refine ⟨rfl, by decide, by decide, by decide⟩

/-- Claim C1 (corrected): `QueueWorker.start` itself performs the claimed
recovery — every stored `processing` job older than the 24-hour threshold is
marked failed with the abandonment message, every remaining `processing` job
is flipped back to `queued`, the `queued` jobs are pushed onto the FIFO in
ascending `createdAt` order with a live registry entry ensured for each, and
all of this precedes every worker spawn — but the application startup never
invokes `QueueWorker.start`, so none of it runs at process startup. -/
theorem queue_worker_start_recovers_before_workers (now : Int) (numWorkers : Nat)
    (db0 : List JobRow) (reg0 : Registry) :
    (∀ j ∈ db0, j.status = "processing" →
      j.updatedAt < now - (ZOMBIE_THRESHOLD_HOURS : Int) * 3600 →
      ∃ j2 ∈ (queueWorkerStart now numWorkers db0 reg0).db,
        j2.id = j.id ∧ j2.status = "failed" ∧ j2.errorMessage = some zombieMessage)
    ∧ (∀ j ∈ db0, j.status = "processing" →
        ¬ (j.updatedAt < now - (ZOMBIE_THRESHOLD_HOURS : Int) * 3600) →
        ∃ j2 ∈ (queueWorkerStart now numWorkers db0 reg0).db,
          j2.id = j.id ∧ j2.status = "queued")
    ∧ (∃ rows : List JobRow,
        (queueWorkerStart now numWorkers db0 reg0).fifo = rows.map (fun j => j.jobId)
        ∧ List.Pairwise (fun a b => a.createdAt ≤ b.createdAt) rows
        ∧ ∀ j, j ∈ rows ↔
            (j ∈ (queueWorkerStart now numWorkers db0 reg0).db ∧ j.status = "queued"))
    ∧ (∀ j ∈ (queueWorkerStart now numWorkers db0 reg0).db, j.status = "queued" →
        (lookupJob (queueWorkerStart now numWorkers db0 reg0).registry j.jobId).isSome =
          true)
    ∧ (∃ pre, (queueWorkerStart now numWorkers db0 reg0).actions =
        pre ++ (List.range numWorkers).map AppAction.spawnWorker
        ∧ ∀ a ∈ pre, isSpawnWorker a = false)
    ∧ AppAction.reapZombies ∉ lifespanStartupActions
    ∧ AppAction.recoverInFlight ∉ lifespanStartupActions := by
  refine ⟨?_, ?_, ?_, ?_, ?_, by decide, by decide⟩
  · intro j hj hstat hz
    have hzb : isZombieAt now j = true := by
      simp [isZombieAt, hstat, hz]
    refine ⟨{ j with status := "failed", errorMessage := some zombieMessage },
      ?_, rfl, rfl, rfl⟩
    show _ ∈ recoverFlip (cleanupZombieJobs now db0)
    unfold recoverFlip cleanupZombieJobs
    have h1 : ({ j with status := "failed", errorMessage := some zombieMessage } :
        JobRow) =
        (fun k => if k.status == "processing" then { k with status := "queued" }
          else k)
        ((fun k => if isZombieAt now k then
            { k with status := "failed", errorMessage := some zombieMessage }
          else k) j) := by
      simp [hzb]
    rw [h1]
    exact List.mem_map_of_mem _ (List.mem_map_of_mem _ hj)
  · intro j hj hstat hnz
    have hzb : isZombieAt now j = false := by
      simp [isZombieAt, hstat, hnz]
    refine ⟨{ j with status := "queued" }, ?_, rfl, rfl⟩
    show _ ∈ recoverFlip (cleanupZombieJobs now db0)
    unfold recoverFlip cleanupZombieJobs
    have h1 : ({ j with status := "queued" } : JobRow) =
        (fun k => if k.status == "processing" then { k with status := "queued" }
          else k)
        ((fun k => if isZombieAt now k then
            { k with status := "failed", errorMessage := some zombieMessage }
          else k) j) := by
      simp [hzb, hstat]
    rw [h1]
    exact List.mem_map_of_mem _ (List.mem_map_of_mem _ hj)
  · refine ⟨sortByCreatedAt ((recoverFlip (cleanupZombieJobs now db0)).filter
      (fun j => j.status == "queued")), rfl, pairwise_sortByCreatedAt _, ?_⟩
    intro j
    rw [mem_sortByCreatedAt, List.mem_filter]
    show _ ∧ (j.status == "queued") = true ↔ _
    simp only [beq_iff_eq]
    exact Iff.rfl
  · intro j hj hq
    have hjf : j ∈ (recoverFlip (cleanupZombieJobs now db0)).filter
        (fun k => k.status == "queued") := by
      rw [List.mem_filter]
      exact ⟨hj, by simp [hq]⟩
    have hjs := (mem_sortByCreatedAt j _).mpr hjf
    exact lookupJob_foldl_ensure now _ reg0 j hjs
  · exact ⟨AppAction.reapZombies :: AppAction.recoverInFlight ::
      (queueWorkerStart now numWorkers db0 reg0).fifo.map AppAction.pushFifo,
      rfl, by
        intro a ha
        rcases List.mem_cons.mp ha with rfl | ha
        · rfl
        rcases List.mem_cons.mp ha with rfl | ha
        · rfl
        rcases List.mem_map.mp ha with ⟨id, _, rfl⟩
        rfl⟩

/-- Claim C9 counterexample: the image-to-video handler performs no cache
lookup at all (it does not even read the asset table), so an optionless
image-to-video submission whose prompt, model and the `video` modality match
an existing usable asset row is nevertheless answered `pending` and a
processing background task is scheduled — the provider will be called, the
matching asset notwithstanding. -/
theorem image_to_video_ignores_cache :
    fingerprintMatch assetOldDragonVideo "a dragon" "veo-3.0-fast" "video" = true
    ∧ truthyPath assetOldDragonVideo.filePath = true
    ∧ (image_to_video [] 0 "job-1" "a dragon" "veo-3.0-fast").response.status =
        "pending"
    ∧ (image_to_video [] 0 "job-1" "a dragon" "veo-3.0-fast").task =
        some { jobId := "job-1", prompt := "a dragon", model := "veo-3.0-fast" }
    ∧ Effect.scheduleTask "job-1" ∈
        (image_to_video [] 0 "job-1" "a dragon" "veo-3.0-fast").effects := by
  refine ⟨by decide, by decide, rfl, rfl, by decide⟩

/-- Claim C9 (corrected): cache-lookup idempotence holds for the two text
modalities — an optionless text-to-image (resp. text-to-video) submission
matching an existing asset row is answered `completed` with a newest
matching asset's id and file path, with no background task scheduled and no
effect beyond the two registry writes, so the remote provider is not called
— but the image-to-video handler never consults the cache: it answers
`pending` and schedules the processing task regardless of the asset table. -/
theorem cache_hit_text_modalities_only (assets : List Asset) (reg regV regM : Registry)
    (now nowV nowM : Int) (idI idV idM : String) (reqI : ImageGenerateRequest)
    (reqV : VideoGenerateRequest) (prompt model : String)
    (hoptI : imageRequestHasOptions reqI = false)
    (hmatchI : ∃ a ∈ assets, fingerprintMatch a reqI.prompt reqI.model "image" = true)
    (hpathI : ∀ a ∈ assets, fingerprintMatch a reqI.prompt reqI.model "image" = true →
      truthyPath a.filePath = true)
    (hoptV : videoRequestHasOptions reqV = false)
    (hmatchV : ∃ a ∈ assets, fingerprintMatch a reqV.prompt reqV.model "video" = true)
    (hpathV : ∀ a ∈ assets, fingerprintMatch a reqV.prompt reqV.model "video" = true →
      truthyPath a.filePath = true) :
    (∃ a fp, a ∈ assets ∧ fingerprintMatch a reqI.prompt reqI.model "image" = true
      ∧ (∀ b ∈ assets, fingerprintMatch b reqI.prompt reqI.model "image" = true →
          b.createdAt ≤ a.createdAt)
      ∧ a.filePath = some fp
      ∧ (text_to_image assets reg now idI reqI).response.status = "completed"
      ∧ lookupJob (text_to_image assets reg now idI reqI).registry idI =
          some { job_id := idI, status := "completed", asset_id := some a.id,
                 result_url := some fp, error_message := none, created_at := now }
      ∧ (text_to_image assets reg now idI reqI).task = none
      ∧ (text_to_image assets reg now idI reqI).effects =
          [Effect.registryCreate idI,
           Effect.registryUpdate idI (some "completed") (some a.id) (some fp) none])
    ∧ (∃ a fp, a ∈ assets ∧ fingerprintMatch a reqV.prompt reqV.model "video" = true
      ∧ (∀ b ∈ assets, fingerprintMatch b reqV.prompt reqV.model "video" = true →
          b.createdAt ≤ a.createdAt)
      ∧ a.filePath = some fp
      ∧ (text_to_video assets regV nowV idV reqV).response.status = "completed"
      ∧ lookupJob (text_to_video assets regV nowV idV reqV).registry idV =
          some { job_id := idV, status := "completed", asset_id := some a.id,
                 result_url := some fp, error_message := none, created_at := nowV }
      ∧ (text_to_video assets regV nowV idV reqV).task = none
      ∧ (text_to_video assets regV nowV idV reqV).effects =
          [Effect.registryCreate idV,
           Effect.registryUpdate idV (some "completed") (some a.id) (some fp) none])
    ∧ (image_to_video regM nowM idM prompt model).response.status = "pending"
    ∧ (image_to_video regM nowM idM prompt model).task =
        some { jobId := idM, prompt := prompt, model := model }
    ∧ Effect.scheduleTask idM ∈ (image_to_video regM nowM idM prompt model).effects := by
  refine ⟨text_to_image_cache_hit_lemma assets reg now idI reqI hoptI hmatchI hpathI,
    text_to_video_cache_hit_lemma assets regV nowV idV reqV hoptV hmatchV hpathV,
    rfl, rfl, ?_⟩
  simp [image_to_video, generateMissPath]

/-- Witness for `cache_hit_text_modalities_only`: the seeded image asset of
spec scenario 1 plus a seeded video asset, hit by an optionless text-to-image
and an optionless text-to-video submission. -/
theorem cache_hit_text_modalities_only_witness :
    (∃ a fp, a ∈ [assetOldSword, assetOldDragonVideo]
      ∧ fingerprintMatch a reqSwordSpaced.prompt reqSwordSpaced.model "image" = true
      ∧ (∀ b ∈ [assetOldSword, assetOldDragonVideo],
          fingerprintMatch b reqSwordSpaced.prompt reqSwordSpaced.model "image" = true →
          b.createdAt ≤ a.createdAt)
      ∧ a.filePath = some fp
      ∧ (text_to_image [assetOldSword, assetOldDragonVideo] [] 0 "job-1"
          reqSwordSpaced).response.status = "completed"
      ∧ lookupJob (text_to_image [assetOldSword, assetOldDragonVideo] [] 0 "job-1"
          reqSwordSpaced).registry "job-1" =
          some { job_id := "job-1", status := "completed", asset_id := some a.id,
                 result_url := some fp, error_message := none, created_at := 0 }
      ∧ (text_to_image [assetOldSword, assetOldDragonVideo] [] 0 "job-1"
          reqSwordSpaced).task = none
      ∧ (text_to_image [assetOldSword, assetOldDragonVideo] [] 0 "job-1"
          reqSwordSpaced).effects =
          [Effect.registryCreate "job-1",
           Effect.registryUpdate "job-1" (some "completed") (some a.id)
             (some fp) none])
    ∧ (∃ a fp, a ∈ [assetOldSword, assetOldDragonVideo]
      ∧ fingerprintMatch a reqDragonVideo.prompt reqDragonVideo.model "video" = true
      ∧ (∀ b ∈ [assetOldSword, assetOldDragonVideo],
          fingerprintMatch b reqDragonVideo.prompt reqDragonVideo.model "video" = true →
          b.createdAt ≤ a.createdAt)
      ∧ a.filePath = some fp
      ∧ (text_to_video [assetOldSword, assetOldDragonVideo] [] 0 "job-2"
          reqDragonVideo).response.status = "completed"
      ∧ lookupJob (text_to_video [assetOldSword, assetOldDragonVideo] [] 0 "job-2"
          reqDragonVideo).registry "job-2" =
          some { job_id := "job-2", status := "completed", asset_id := some a.id,
                 result_url := some fp, error_message := none, created_at := 0 }
      ∧ (text_to_video [assetOldSword, assetOldDragonVideo] [] 0 "job-2"
          reqDragonVideo).task = none
      ∧ (text_to_video [assetOldSword, assetOldDragonVideo] [] 0 "job-2"
          reqDragonVideo).effects =
          [Effect.registryCreate "job-2",
           Effect.registryUpdate "job-2" (some "completed") (some a.id)
             (some fp) none])
    ∧ (image_to_video [] 0 "job-3" "a dragon" "veo-3.0-fast").response.status =
        "pending"
    ∧ (image_to_video [] 0 "job-3" "a dragon" "veo-3.0-fast").task =
        some { jobId := "job-3", prompt := "a dragon", model := "veo-3.0-fast" }
    ∧ Effect.scheduleTask "job-3" ∈
        (image_to_video [] 0 "job-3" "a dragon" "veo-3.0-fast").effects :=
  cache_hit_text_modalities_only [assetOldSword, assetOldDragonVideo] [] [] [] 0 0 0
    "job-1" "job-2" "job-3" reqSwordSpaced reqDragonVideo "a dragon" "veo-3.0-fast"
    (by decide) ⟨assetOldSword, by decide, by decide⟩ (by decide)
    (by decide) ⟨assetOldDragonVideo, by decide, by decide⟩ (by decide)
